import Mathlib

/-!
Shallow embedding of src/singleton-crtp.h (namespace bb::singleton::singleton_crtp).

The header provides:
* a marker base `IMainCtor` with a non-static data member `bool IsMainCtorCalled{false}`;
* a trait `has_MainCtor<T>` whose partial specialization matches exactly when
  `decltype(std::declval<T>().IsMainCtorCalled)` is well-formed and equal to the
  default template argument `decltype(std::declval<IMainCtor>().IsMainCtorCalled)`;
* an overload set `CheckIsMainCtorCalled`: a template overload enabled via
  `std::enable_if<has_MainCtor<T>::value>` that returns `t->IsMainCtorCalled`, and a
  variadic fallback returning `true`;
* the class template `SingletonCRTP<T>` with `CreateSingleton`, `GetInstance`,
  dereference operators, deleted copy/move members, a protected constructor that
  assigns the static `instance` pointer, and a virtual destructor that deletes the
  instance and resets the pointer to null.

The embedding models the relevant fragment of C++ semantics explicitly: member
declarations and the `decltype` of the `declval`-based member access (for an
unparenthesized member access, `decltype` yields the declared type of the member,
for static and non-static members alike), overload resolution of
`CheckIsMainCtorCalled` as selected by the trait, and the static `instance` pointer
as a state component.  Objects carry an allocation identifier so that object
identity ("the same instance", "a new object") is expressible.  A failed `assert`
is modelled as `Except.error`; the destructor, whose body re-enters itself through
`delete instance` when the live instance is destroyed, is additionally modelled
with an explicit recursion-depth bound (`runDestructorBody`) so that its
non-termination is provable.
-/

/-- Scalar types with which a data member named `IsMainCtorCalled` might be declared
in a composed class.  `IMainCtor` declares it as `bool`. -/
inductive CxxTy
  | bool
  | int
  deriving DecidableEq, Repr

/-- How a class declares (or does not declare) a member named `IsMainCtorCalled`:
absent, a non-static data member, or a static data member. -/
inductive MemberDecl
  | absent
  | field (ty : CxxTy)
  | staticField (ty : CxxTy)
  deriving DecidableEq, Repr

/-- `decltype(std::declval<T>().IsMainCtorCalled)` for a class with member
declaration `d`: ill-formed (`none`, SFINAE discards the candidate) when the member
is absent; otherwise the declared type of the member.  For an unparenthesized class
member access, `decltype` yields the declared type of the named member — for static
and non-static members alike; the value-category reference adjustment applies only
to other expressions. -/
def memberAccessDecltype : MemberDecl → Option CxxTy
  | MemberDecl.absent => none
  | MemberDecl.field ty => some ty
  | MemberDecl.staticField ty => some ty

/-- `struct IMainCtor { bool IsMainCtorCalled{false}; };` — its member declaration. -/
def IMainCtorDecl : MemberDecl := MemberDecl.field CxxTy.bool

/-- `has_MainCtor<T>::value`.  The primary template's second parameter defaults to
`decltype(std::declval<IMainCtor>().IsMainCtorCalled)`; the partial specialization
`has_MainCtor<T, decltype(std::declval<T>().IsMainCtorCalled)>` (deriving
`std::true_type`) is selected exactly when that decltype is well-formed and equal to
the default argument; otherwise the primary template (deriving `std::false_type`)
applies. -/
def has_MainCtor (d : MemberDecl) : Bool :=
  match memberAccessDecltype d with
  | none => false
  | some dt => decide (some dt = memberAccessDecltype IMainCtorDecl)

/-- The spec-side notion (clearly separated from the source-side trait): a class
"declares the main-constructor completion flag" when it declares a member named
`IsMainCtorCalled` whose declared type is `bool`, as `IMainCtor` does.  The member
may equally be static: the access `t->IsMainCtorCalled` is valid for a static
member too, and its `decltype` is the same plain `bool`. -/
def declaresMarkerAttribute (d : MemberDecl) : Prop :=
  d = MemberDecl.field CxxTy.bool ∨ d = MemberDecl.staticField CxxTy.bool

instance (d : MemberDecl) : Decidable (declaresMarkerAttribute d) := by
  unfold declaresMarkerAttribute
  infer_instance

/-- The overload set `CheckIsMainCtorCalled` applied to a pointer to an object whose
class has member declaration `d` and whose `IsMainCtorCalled` member (when it is the
non-static `bool` member) holds `flagValue`: the template overload is enabled via
`std::enable_if<has_MainCtor<T>::value, bool>` and returns `t->IsMainCtorCalled`;
when the trait is false the variadic fallback `CheckIsMainCtorCalled(...)` is the
only viable candidate and returns `true`. -/
def CheckIsMainCtorCalled (d : MemberDecl) (flagValue : Bool) : Bool :=
  if has_MainCtor d then flagValue else true

/-- A composed class `T`: how it declares `IsMainCtorCalled`, and what value its
constructor leaves in that flag as a function of the constructor arguments
(arguments are modelled as opaque naturals). -/
structure ClassSpec where
  memberDecl : MemberDecl
  ctorFlag : List Nat → Bool

/-- A constructed object of the composed class: an allocation identifier (object
identity) and the value of its `IsMainCtorCalled` flag. -/
structure SingObj where
  id : Nat
  flag : Bool
  deriving DecidableEq, Repr

/-- The state of `SingletonCRTP<T>`: the static `instance` pointer (`none` is the
null pointer, `some o` points at object `o`), the next fresh allocation identifier,
and the identifiers of the currently live objects of the composed class. -/
structure SingState where
  inst : Option SingObj
  next : Nat
  live : List Nat
  deriving DecidableEq, Repr

/-- The initial state: the static member definition
`SingletonCRTP<T>::instance = nullptr`, no object allocated. -/
def initSingState : SingState := { inst := none, next := 0, live := [] }

/-- Construction of an object of the composed class (any `new Type(args)`, also
outside `CreateSingleton`): allocates a fresh object whose flag the derived
constructor sets to `C.ctorFlag args`, and runs the protected base constructor
`SingletonCRTP() { instance = static_cast<Type*>(this); }`, which overwrites the
static pointer with the new object. -/
def directConstruct (C : ClassSpec) (args : List Nat) (s : SingState) :
    SingObj × SingState :=
  let o : SingObj := { id := s.next, flag := C.ctorFlag args }
  (o, { inst := some o, next := s.next + 1, live := s.live ++ [s.next] })

/-- `SingletonCRTP<T>::CreateSingleton(args)`: if the pointer is null, construct
`new Type(args)` and assign it to `instance` (the base constructor already did the
same assignment); then `assert(CheckIsMainCtorCalled(instance))`; on success return
a reference to `*instance`. -/
def CreateSingleton (C : ClassSpec) (args : List Nat) (s : SingState) :
    Except String (SingObj × SingState) :=
  let r : SingObj × SingState :=
    match s.inst with
    | some o => (o, s)
    | none =>
        let p := directConstruct C args s
        (p.1, { p.2 with inst := some p.1 })
  if CheckIsMainCtorCalled C.memberDecl r.1.flag then
    Except.ok r
  else
    Except.error "assertion failed: CheckIsMainCtorCalled(instance)"

/-- `SingletonCRTP<T>::GetInstance()`:
`assert(("Function of --CreateSingleton-- already should be called.", instance != nullptr))`,
then return the pointer. -/
def GetInstance (s : SingState) : Except String (SingObj × SingState) :=
  match s.inst with
  | none => Except.error "assertion failed: instance != nullptr"
  | some o => Except.ok (o, s)

/-- `Type& operator *()` — returns `*instance` with no null check; `none` models an
unguarded dereference of the null pointer (undefined behaviour), not an assertion. -/
def operatorStar (s : SingState) : Option SingObj := s.inst

/-- `Type* operator ->()` — implemented in the source as `return &**this;`. -/
def operatorArrow (s : SingState) : Option SingObj := operatorStar s

/-- `const Type& operator *() const` — same body as the non-const overload. -/
def constOperatorStar (s : SingState) : Option SingObj := s.inst

/-- `const Type* operator ->() const` — implemented as `return &**this;`. -/
def constOperatorArrow (s : SingState) : Option SingObj := constOperatorStar s

/-- Idealized over-approximation of
`virtual ~SingletonCRTP() { delete instance; instance = nullptr; }`: the pointed
object (if any) ceases to be live and the static pointer is reset to null.  The
real body re-enters itself through `delete instance` when the live instance is
destroyed and never reaches the null assignment (see `runDestructorBody` for the
faithful model); this idealization is used only for the safety invariants, where it
merely adds runs on which the invariants must still hold. -/
def destroySingleton (s : SingState) : SingState :=
  { inst := none
    next := s.next
    live :=
      match s.inst with
      | some o => s.live.erase o.id
      | none => s.live }

/-- The special member functions of `SingletonCRTP` declared `= delete`
(lines 124-129 of the header). -/
structure SpecialMemberTable where
  copyCtorDeleted : Bool
  copyAssignDeleted : Bool
  moveCtorDeleted : Bool
  moveAssignDeleted : Bool
  deriving DecidableEq, Repr

/-- `SingletonCRTP(const SingletonCRTP&) = delete;`
`SingletonCRTP& operator=(const SingletonCRTP&) = delete;`
`SingletonCRTP(SingletonCRTP&&) = delete;`
`SingletonCRTP& operator=(SingletonCRTP&&) = delete;` -/
def singletonCRTPSpecialMembers : SpecialMemberTable :=
  { copyCtorDeleted := true
    copyAssignDeleted := true
    moveCtorDeleted := true
    moveAssignDeleted := true }

/-- The operations the utility itself offers to a client. -/
inductive SingOp
  | create (args : List Nat)
  | get
  | deref
  | destroy
  deriving DecidableEq, Repr

/-- One utility operation applied to the state; a failed assertion aborts. -/
def stepOp (C : ClassSpec) (s : SingState) : SingOp → Except String SingState
  | SingOp.create args => (CreateSingleton C args s).map (fun r => r.2)
  | SingOp.get => (GetInstance s).map (fun r => r.2)
  | SingOp.deref => Except.ok s
  | SingOp.destroy => Except.ok (destroySingleton s)

/-- Run a sequence of utility operations from a state; stop at the first failed
assertion. -/
def runOps (C : ClassSpec) (s : SingState) : List SingOp → Except String SingState
  | [] => Except.ok s
  | op :: ops =>
    match stepOp C s op with
    | Except.ok s1 => runOps C s1 ops
    | Except.error e => Except.error e

/-- The live-object list a state should have given its pointer: empty when the
pointer is null, exactly the pointed object otherwise. -/
def expectedLive : Option SingObj → List Nat
  | none => []
  | some o => [o.id]

/-- State invariant maintained by the utility operations: the live objects are
exactly the one the static pointer refers to (none when the pointer is null). -/
def GoodState (s : SingState) : Prop := s.live = expectedLive s.inst

instance (s : SingState) : Decidable (GoodState s) := by
  unfold GoodState
  infer_instance

/-- The object `CreateSingleton` works with: the already existing instance, or the
newly constructed one when the pointer was null at the time of the call. -/
def instAtCall (C : ClassSpec) (args : List Nat) (s : SingState) : SingObj :=
  match s.inst with
  | some o => o
  | none => { id := s.next, flag := C.ctorFlag args }

/-- The state after `CreateSingleton` ran its conditional creation step: unchanged
when an instance already existed, otherwise the state with the freshly constructed
object installed. -/
def stateAfterCreate (C : ClassSpec) (args : List Nat) (s : SingState) : SingState :=
  match s.inst with
  | some _ => s
  | none =>
      { inst := some (instAtCall C args s)
        next := s.next + 1
        live := s.live ++ [s.next] }

/-- Concrete class with no `IsMainCtorCalled` member. -/
def specNoFlag : ClassSpec :=
  { memberDecl := MemberDecl.absent, ctorFlag := fun _ => false }

/-- Concrete class declaring the `bool` flag, whose constructor sets the flag
exactly when it receives the argument list `[1]` (its "main constructor"). -/
def specWithFlag : ClassSpec :=
  { memberDecl := MemberDecl.field CxxTy.bool
    ctorFlag := fun args => args = [1] }

/-- The state reached from the initial state by one successful `CreateSingleton`
call on `specNoFlag` with no arguments. -/
def stAfterFirstCreate : SingState :=
  { inst := some { id := 0, flag := false }, next := 1, live := [0] }

/-- Faithful model of one invocation of the destructor body
`delete instance; instance = nullptr;` on the current state, with an explicit
recursion-depth bound.  The destructor is invoked on the live instance, which the
base constructor made the static pointer refer to.  When the pointer is null,
`delete instance` is a no-op and the null assignment runs.  When the pointer holds
an object, `delete instance` invokes the (virtual) destructor of that very object,
whose `SingletonCRTP` part re-runs this same body in the unchanged state before
anything else happens; only if that inner destruction completed would the object be
freed and the outer null assignment run.  `none` means the depth bound was reached:
the recursion has not terminated within any bound. -/
def runDestructorBody : Nat → SingState → Option SingState
  | 0, _ => none
  | fuel + 1, s =>
      match s.inst with
      | none => some { s with inst := none }
      | some o =>
          match runDestructorBody fuel s with
          | none => none
          | some s1 => some { s1 with inst := none, live := s1.live.erase o.id }

/-- One utility operation with the destructor modelled faithfully
(`runDestructorBody`): `none` when the operation does not terminate within the
depth bound, otherwise `some` of the assert outcome. -/
def stepOpFaithful (C : ClassSpec) (fuel : Nat) (s : SingState) :
    SingOp → Option (Except String SingState)
  | SingOp.create args => some ((CreateSingleton C args s).map (fun r => r.2))
  | SingOp.get => some ((GetInstance s).map (fun r => r.2))
  | SingOp.deref => some (Except.ok s)
  | SingOp.destroy => (runDestructorBody fuel s).map Except.ok

/-- Run a sequence of utility operations with the faithful destructor: `none` when
some step never terminates, `some (Except.error e)` when a step fails its
assertion, `some (Except.ok s1)` when the whole run completes. -/
def runOpsFaithful (C : ClassSpec) (fuel : Nat) (s : SingState) :
    List SingOp → Option (Except String SingState)
  | [] => some (Except.ok s)
  | op :: ops =>
      match stepOpFaithful C fuel s op with
      | none => none
      | some (Except.error e) => some (Except.error e)
      | some (Except.ok s1) => runOpsFaithful C fuel s1 ops

/-! ## Helper lemmas -/

/-- `CreateSingleton` characterized through `instAtCall` and `stateAfterCreate`. -/
theorem CreateSingleton_eq (C : ClassSpec) (args : List Nat) (s : SingState) :
    CreateSingleton C args s =
      if CheckIsMainCtorCalled C.memberDecl (instAtCall C args s).flag then
        Except.ok (instAtCall C args s, stateAfterCreate C args s)
      else Except.error "assertion failed: CheckIsMainCtorCalled(instance)" := by
  cases hs : s.inst <;>
    simp [CreateSingleton, instAtCall, stateAfterCreate, directConstruct, hs]

/-- After the conditional creation step the static pointer refers to the object
`CreateSingleton` works with. -/
theorem stateAfterCreate_inst (C : ClassSpec) (args : List Nat) (s : SingState) :
    (stateAfterCreate C args s).inst = some (instAtCall C args s) := by
  cases hs : s.inst <;> simp [stateAfterCreate, instAtCall, hs]

/-- Every utility operation preserves the state invariant. -/
theorem stepOp_good (C : ClassSpec) (s : SingState) (op : SingOp) (s1 : SingState)
    (hg : GoodState s) (h : stepOp C s op = Except.ok s1) : GoodState s1 := by
  cases op with
  | create args =>
      simp only [stepOp, CreateSingleton_eq] at h
      by_cases hc : CheckIsMainCtorCalled C.memberDecl (instAtCall C args s).flag
      · rw [if_pos hc] at h
        simp only [Except.map] at h
        cases h
        cases hs : s.inst with
        | none =>
            have hl : s.live = [] := by
              have hgl := hg
              unfold GoodState at hgl
              rw [hs] at hgl
              simpa [expectedLive] using hgl
            unfold GoodState
            rw [stateAfterCreate_inst]
            simp [stateAfterCreate, instAtCall, expectedLive, hs, hl]
        | some o =>
            have hse : stateAfterCreate C args s = s := by
              unfold stateAfterCreate
              rw [hs]
            rw [hse]
            exact hg
      · rw [if_neg hc] at h
        simp [Except.map] at h
  | get =>
      cases hs : s.inst with
      | none => simp [stepOp, GetInstance, hs, Except.map] at h
      | some o =>
          simp only [stepOp, GetInstance, hs, Except.map] at h
          cases h
          exact hg
  | deref =>
      simp only [stepOp] at h
      cases h
      exact hg
  | destroy =>
      simp only [stepOp] at h
      cases h
      cases hs : s.inst with
      | none =>
          have hl : s.live = [] := by
            have hgl := hg
            unfold GoodState at hgl
            rw [hs] at hgl
            simpa [expectedLive] using hgl
          unfold GoodState
          simp [destroySingleton, expectedLive, hs, hl]
      | some o =>
          have hl : s.live = [o.id] := by
            have hgl := hg
            unfold GoodState at hgl
            rw [hs] at hgl
            simpa [expectedLive] using hgl
          unfold GoodState
          simp [destroySingleton, expectedLive, hs, hl]

/-- Running any sequence of utility operations preserves the state invariant. -/
theorem runOps_good (C : ClassSpec) (ops : List SingOp) (s s1 : SingState)
    (hg : GoodState s) (h : runOps C s ops = Except.ok s1) : GoodState s1 := by
  induction ops generalizing s with
  | nil =>
      simp only [runOps] at h
      cases h
      exact hg
  | cons op rest ih =>
      simp only [runOps] at h
      cases hstep : stepOp C s op with
      | error e => rw [hstep] at h; exact absurd h (by simp)
      | ok s2 =>
          rw [hstep] at h
          exact ih s2 (stepOp_good C s op s2 hg hstep) h

/-! ## Claim theorems -/

/-- C2: for every member declaration, the compile-time predicate
`has_MainCtor<T>::value` is true exactly when the type declares the marker
attribute: a member named `IsMainCtorCalled` of declared type `bool` (static or
non-static — `decltype` of the unparenthesized access is plain `bool` either way,
matching the default template argument taken from `IMainCtor`): the trait probe
distinguishes all types with the marker attribute from all types without it. -/
theorem has_MainCtor_iff_marker (d : MemberDecl) :
    has_MainCtor d = true ↔ declaresMarkerAttribute d := by
  cases d with
  | absent => decide
  | field ty => cases ty <;> decide
  | staticField ty => cases ty <;> decide

/-- C2 witness: the trait is true on a class declaring the marker attribute, also
when the flag member is static. -/
theorem has_MainCtor_iff_marker_witness :
    has_MainCtor (MemberDecl.field CxxTy.bool) = true ∧
    has_MainCtor (MemberDecl.staticField CxxTy.bool) = true :=
  ⟨(has_MainCtor_iff_marker (MemberDecl.field CxxTy.bool)).mpr (Or.inl rfl),
   (has_MainCtor_iff_marker (MemberDecl.staticField CxxTy.bool)).mpr (Or.inr rfl)⟩

/-- C6: `CheckIsMainCtorCalled` applied to a pointer to an object of a class that
declares the completion flag returns the value of `t->IsMainCtorCalled`; applied to
an argument of a class that does not declare the flag, it resolves to the variadic
fallback and returns `true`. -/
theorem CheckIsMainCtorCalled_overloads (d : MemberDecl) (b : Bool) :
    (declaresMarkerAttribute d → CheckIsMainCtorCalled d b = b) ∧
    (¬ declaresMarkerAttribute d → CheckIsMainCtorCalled d b = true) := by
  cases d with
  | absent => cases b <;> decide
  | field ty => cases ty <;> cases b <;> decide
  | staticField ty => cases ty <;> cases b <;> decide

/-- C6 witness: the flag value is returned for a flagged class (also with a static
flag member) and `true` for an unflagged one. -/
theorem CheckIsMainCtorCalled_overloads_witness :
    CheckIsMainCtorCalled (MemberDecl.field CxxTy.bool) false = false ∧
    CheckIsMainCtorCalled (MemberDecl.staticField CxxTy.bool) false = false ∧
    CheckIsMainCtorCalled MemberDecl.absent false = true :=
  ⟨(CheckIsMainCtorCalled_overloads (MemberDecl.field CxxTy.bool) false).1 (Or.inl rfl),
   (CheckIsMainCtorCalled_overloads (MemberDecl.staticField CxxTy.bool) false).1 (Or.inr rfl),
   (CheckIsMainCtorCalled_overloads MemberDecl.absent false).2 (by decide)⟩

/-- C1: for a composed class whose trait `has_MainCtor` holds, `CreateSingleton`
fails its assertion exactly when the flag of the (new or already existing) instance
is false at the time of the call; when the flag is set, the call returns the
instance and the pointer refers to it. -/
theorem CreateSingleton_assert_iff_flag_unset (C : ClassSpec) (args : List Nat)
    (s : SingState) (hm : has_MainCtor C.memberDecl = true) :
    ((∃ e, CreateSingleton C args s = Except.error e) ↔
      (instAtCall C args s).flag = false) ∧
    ((instAtCall C args s).flag = true →
      CreateSingleton C args s =
        Except.ok (instAtCall C args s, stateAfterCreate C args s) ∧
      (stateAfterCreate C args s).inst = some (instAtCall C args s)) := by
  rw [CreateSingleton_eq]
  unfold CheckIsMainCtorCalled
  rw [hm]
  cases hf : (instAtCall C args s).flag <;>
    simp [hf, stateAfterCreate_inst]

/-- C1 witness: with the flagged class whose main constructor (argument list `[1]`)
sets the flag, the first `CreateSingleton` passes the assertion and returns the
instance. -/
theorem CreateSingleton_assert_iff_flag_unset_witness :
    CreateSingleton specWithFlag [1] initSingState =
      Except.ok (instAtCall specWithFlag [1] initSingState,
        stateAfterCreate specWithFlag [1] initSingState) ∧
    (stateAfterCreate specWithFlag [1] initSingState).inst =
      some (instAtCall specWithFlag [1] initSingState) :=
  (CreateSingleton_assert_iff_flag_unset specWithFlag [1] initSingState
    (by decide)).2 rfl

/-- C3: `GetInstance` fails its assertion exactly when no instance exists (the
static pointer is null); when an instance exists it returns a pointer to that
instance and leaves the state unchanged. -/
theorem GetInstance_assert_iff_no_instance (s : SingState) :
    ((∃ e, GetInstance s = Except.error e) ↔ s.inst = none) ∧
    (∀ o, s.inst = some o → GetInstance s = Except.ok (o, s)) := by
  cases hs : s.inst <;> simp [GetInstance, hs]

/-- C3 witness: on the state after a successful creation, `GetInstance` returns the
instance and leaves the state unchanged. -/
theorem GetInstance_assert_iff_no_instance_witness :
    GetInstance stAfterFirstCreate =
      Except.ok ({ id := 0, flag := false }, stAfterFirstCreate) :=
  (GetInstance_assert_iff_no_instance stAfterFirstCreate).2
    { id := 0, flag := false } rfl

/-- C5: `CreateSingleton` is first-call-wins: after a successful call returning
instance `o` in state `s1`, a second call with any (possibly different) argument
list constructs no new object, ignores its arguments, and returns the same
instance `o` with the state unchanged. -/
theorem CreateSingleton_first_call_wins (C : ClassSpec) (args1 args2 : List Nat)
    (s : SingState) (o : SingObj) (s1 : SingState)
    (h : CreateSingleton C args1 s = Except.ok (o, s1)) :
    CreateSingleton C args2 s1 = Except.ok (o, s1) := by
  rw [CreateSingleton_eq] at h
  by_cases hc : CheckIsMainCtorCalled C.memberDecl (instAtCall C args1 s).flag
  · rw [if_pos hc] at h
    obtain ⟨ho, hst⟩ : instAtCall C args1 s = o ∧ stateAfterCreate C args1 s = s1 := by
      simpa using h
    have hi : s1.inst = some o := by
      rw [← hst, ← ho]
      exact stateAfterCreate_inst C args1 s
    have h2 : instAtCall C args2 s1 = o := by
      unfold instAtCall
      rw [hi]
    have h3 : stateAfterCreate C args2 s1 = s1 := by
      unfold stateAfterCreate
      rw [hi]
    rw [CreateSingleton_eq, h2, h3, if_pos (ho ▸ hc)]
  · rw [if_neg hc] at h
    exact absurd h (by simp)

/-- C5 witness: a second `CreateSingleton` call with different arguments returns
the instance created by the first call, in the unchanged state. -/
theorem CreateSingleton_first_call_wins_witness :
    CreateSingleton specNoFlag [7] stAfterFirstCreate =
      Except.ok ({ id := 0, flag := false }, stAfterFirstCreate) :=
  CreateSingleton_first_call_wins specNoFlag [] [7] initSingState
    { id := 0, flag := false } stAfterFirstCreate rfl

/-- C4: at most one live instance exists at any time.  The static pointer is
initially null; in every state reachable by utility operations at most one object
of the composed class is live; an operation-only run containing no
`CreateSingleton` request leaves the initial state untouched (no object is created
before the first request); and no single utility operation replaces a live
instance with a different object (it either keeps it or, for the destructor,
removes it). -/
theorem singleton_unique_invariant (C : ClassSpec) :
    initSingState.inst = none ∧
    (∀ ops s1, runOps C initSingState ops = Except.ok s1 → s1.live.length ≤ 1) ∧
    (∀ ops s1, (∀ a, SingOp.create a ∉ ops) →
      runOps C initSingState ops = Except.ok s1 → s1 = initSingState) ∧
    (∀ s o op s1, s.inst = some o → stepOp C s op = Except.ok s1 →
      s1.inst = some o ∨ s1.inst = none) := by
  refine ⟨rfl, ?_, ?_, ?_⟩
  · intro ops s1 h
    have hg : GoodState s1 := runOps_good C ops initSingState s1 (by decide) h
    unfold GoodState at hg
    rw [hg]
    cases s1.inst <;> simp [expectedLive]
  · intro ops s1 hnc h
    induction ops with
    | nil =>
        simp only [runOps] at h
        exact (Except.ok.inj h).symm
    | cons op rest ih =>
        have hrest : ∀ a, SingOp.create a ∉ rest := fun a hmem =>
          hnc a (List.mem_cons_of_mem op hmem)
        cases op with
        | create args => exact absurd (List.mem_cons_self _ _) (hnc args)
        | get =>
            exfalso
            simp [runOps, stepOp, GetInstance, initSingState, Except.map] at h
        | deref =>
            have hop : stepOp C initSingState SingOp.deref = Except.ok initSingState := rfl
            simp only [runOps, hop] at h
            exact ih hrest h
        | destroy =>
            have hop : stepOp C initSingState SingOp.destroy = Except.ok initSingState := rfl
            simp only [runOps, hop] at h
            exact ih hrest h
  · intro s o op s1 hi h
    cases op with
    | create args =>
        simp only [stepOp, CreateSingleton_eq] at h
        by_cases hc : CheckIsMainCtorCalled C.memberDecl (instAtCall C args s).flag
        · rw [if_pos hc] at h
          simp only [Except.map] at h
          cases h
          left
          have hse : stateAfterCreate C args s = s := by
            unfold stateAfterCreate
            rw [hi]
          rw [hse]
          exact hi
        · rw [if_neg hc] at h
          simp [Except.map] at h
    | get =>
        simp only [stepOp, GetInstance, hi, Except.map] at h
        cases h
        left
        exact hi
    | deref =>
        simp only [stepOp] at h
        cases h
        left
        exact hi
    | destroy =>
        simp only [stepOp] at h
        cases h
        right
        rfl

/-- C4 witness: the state after one creation request has a single live instance. -/
theorem singleton_unique_invariant_witness :
    stAfterFirstCreate.live.length ≤ 1 :=
  (singleton_unique_invariant specNoFlag).2.1 [SingOp.create []] stAfterFirstCreate rfl

/-- C7: the copy constructor, copy assignment, move constructor, and move
assignment of `SingletonCRTP` are all declared deleted; consequently no utility
operation ever duplicates the instance — from an invariant state every operation
leaves at most one live object of the composed class. -/
theorem no_copy_no_move :
    singletonCRTPSpecialMembers.copyCtorDeleted = true ∧
    singletonCRTPSpecialMembers.copyAssignDeleted = true ∧
    singletonCRTPSpecialMembers.moveCtorDeleted = true ∧
    singletonCRTPSpecialMembers.moveAssignDeleted = true ∧
    (∀ C s op s1, GoodState s → stepOp C s op = Except.ok s1 →
      s1.live.length ≤ 1) := by
  refine ⟨rfl, rfl, rfl, rfl, ?_⟩
  intro C s op s1 hg h
  have hg1 := stepOp_good C s op s1 hg h
  unfold GoodState at hg1
  rw [hg1]
  cases s1.inst <;> simp [expectedLive]

/-- C7 witness: the create step from the initial state leaves one live object. -/
theorem no_copy_no_move_witness :
    stAfterFirstCreate.live.length ≤ 1 ∧ singletonCRTPSpecialMembers.copyCtorDeleted = true :=
  ⟨no_copy_no_move.2.2.2.2 specNoFlag initSingState (SingOp.create [])
      stAfterFirstCreate (by decide) rfl,
   no_copy_no_move.1⟩

/-- Destruction of the live instance never completes: the destructor body
re-enters itself through `delete instance` in the unchanged state, so for every
recursion-depth bound the run is still inside the recursion. -/
theorem runDestructorBody_of_live (fuel : Nat) (s : SingState) (o : SingObj)
    (hi : s.inst = some o) : runDestructorBody fuel s = none := by
  induction fuel with
  | zero => rfl
  | succ fuel ih =>
      simp only [runDestructorBody, hi, ih]

/-- Unfolding a faithful run one operation at a time. -/
theorem runOpsFaithful_cons (C : ClassSpec) (fuel : Nat) (s : SingState)
    (op : SingOp) (ops : List SingOp) :
    runOpsFaithful C fuel s (op :: ops) =
      match stepOpFaithful C fuel s op with
      | none => none
      | some (Except.error e) => some (Except.error e)
      | some (Except.ok s1) => runOpsFaithful C fuel s1 ops := rfl

/-- Splitting a faithful run after a completed prefix. -/
theorem runOpsFaithful_append_ok (C : ClassSpec) (fuel : Nat) (l1 l2 : List SingOp)
    (s s1 : SingState)
    (h : runOpsFaithful C fuel s l1 = some (Except.ok s1)) :
    runOpsFaithful C fuel s (l1 ++ l2) = runOpsFaithful C fuel s1 l2 := by
  induction l1 generalizing s with
  | nil =>
      simp only [runOpsFaithful, Option.some.injEq, Except.ok.injEq] at h
      rw [List.nil_append, h]
  | cons op rest ih =>
      cases hstep : stepOpFaithful C fuel s op with
      | none =>
          rw [runOpsFaithful_cons, hstep] at h
          exact Option.noConfusion h
      | some r =>
          cases r with
          | error e =>
              rw [runOpsFaithful_cons, hstep] at h
              exact Except.noConfusion (Option.some.inj h)
          | ok s2 =>
              rw [runOpsFaithful_cons, hstep] at h
              rw [List.cons_append, runOpsFaithful_cons, hstep]
              exact ih s2 h

/-- C8: the utility supports no teardown-and-recreate cycle.  In every execution
that reaches a state with a live instance and then destroys it, the destructor body
`delete instance; instance = nullptr;` immediately re-invokes the destructor of the
very object being destroyed, so the destruction never completes (for every
recursion-depth bound): the whole run diverges inside the destruction, no
subsequent operation executes at all, and in particular nothing re-initializes the
singleton or creates a new instance of the composed type afterwards. -/
theorem no_teardown_recreate (C : ClassSpec) (fuel : Nat) (l1 l2 : List SingOp)
    (s : SingState) (o : SingObj)
    (h1 : runOpsFaithful C fuel initSingState l1 = some (Except.ok s))
    (hi : s.inst = some o) :
    runDestructorBody fuel s = none ∧
    runOpsFaithful C fuel initSingState (l1 ++ SingOp.destroy :: l2) = none := by
  have hdiv : runDestructorBody fuel s = none := runDestructorBody_of_live fuel s o hi
  refine ⟨hdiv, ?_⟩
  rw [runOpsFaithful_append_ok C fuel l1 (SingOp.destroy :: l2) initSingState s h1]
  simp only [runOpsFaithful, stepOpFaithful, hdiv]
  rfl

/-- C8 witness: the concrete run create, destroy, create diverges at the destroy
step — the second create is never reached. -/
theorem no_teardown_recreate_witness :
    runDestructorBody 3 stAfterFirstCreate = none ∧
    runOpsFaithful specNoFlag 3 initSingState
      ([SingOp.create []] ++ SingOp.destroy :: [SingOp.create []]) = none :=
  no_teardown_recreate specNoFlag 3 [SingOp.create []] [SingOp.create []]
    stAfterFirstCreate { id := 0, flag := false } rfl rfl

/-- C9: every construction of an object of the composed class — also direct
construction outside `CreateSingleton` — runs the protected base constructor,
which installs the newly constructed object in the static pointer (overwriting
whatever it held before); the object is fresh, and a later `CreateSingleton` that
returns does so with exactly that object and performs no allocation (the state is
unchanged). -/
theorem directConstruct_sets_instance (C : ClassSpec) (args : List Nat)
    (s : SingState) :
    (directConstruct C args s).2.inst = some (directConstruct C args s).1 ∧
    (directConstruct C args s).1.id = s.next ∧
    (∀ args2 o2 s2,
      CreateSingleton C args2 (directConstruct C args s).2 = Except.ok (o2, s2) →
      o2 = (directConstruct C args s).1 ∧ s2 = (directConstruct C args s).2) := by
  refine ⟨rfl, rfl, ?_⟩
  intro args2 o2 s2 h
  rw [CreateSingleton_eq] at h
  have h2 : instAtCall C args2 (directConstruct C args s).2 =
      (directConstruct C args s).1 := rfl
  have h3 : stateAfterCreate C args2 (directConstruct C args s).2 =
      (directConstruct C args s).2 := rfl
  rw [h2, h3] at h
  by_cases hc : CheckIsMainCtorCalled C.memberDecl (directConstruct C args s).1.flag
  · rw [if_pos hc] at h
    have hpair : directConstruct C args s = (o2, s2) := by simpa using h
    exact ⟨(congrArg Prod.fst hpair).symm, (congrArg Prod.snd hpair).symm⟩
  · rw [if_neg hc] at h
    exact absurd h (by simp)

/-- C9 witness: a direct construction installs the fresh object, and the following
`CreateSingleton` returns it without allocating. -/
theorem directConstruct_sets_instance_witness :
    ({ id := 0, flag := false } : SingObj) = (directConstruct specNoFlag [] initSingState).1 ∧
    stAfterFirstCreate = (directConstruct specNoFlag [] initSingState).2 :=
  (directConstruct_sets_instance specNoFlag [] initSingState).2.2 [5]
    { id := 0, flag := false } stAfterFirstCreate rfl

/-- C10: the dereference operators (non-const and const `operator*` and
`operator->`) return exactly the object the static pointer refers to, with no null
check: when an instance exists they yield the same object `GetInstance` returns,
and when no instance exists they dereference the null pointer unguarded (no
assertion failure), while `GetInstance` does fail its assertion there. -/
theorem deref_unguarded (s : SingState) :
    operatorStar s = s.inst ∧
    operatorArrow s = operatorStar s ∧
    constOperatorStar s = s.inst ∧
    constOperatorArrow s = constOperatorStar s ∧
    (∀ o, s.inst = some o → operatorStar s = some o ∧
      GetInstance s = Except.ok (o, s)) ∧
    (s.inst = none → operatorStar s = none ∧
      ∃ e, GetInstance s = Except.error e) := by
  refine ⟨rfl, rfl, rfl, rfl, ?_, ?_⟩
  · intro o ho
    exact ⟨ho, by simp [GetInstance, ho]⟩
  · intro hn
    exact ⟨hn, by simp [GetInstance, hn]⟩

/-- C10 witness: on the state after creation, dereference and `GetInstance` agree
on the instance. -/
theorem deref_unguarded_witness :
    operatorStar stAfterFirstCreate = some { id := 0, flag := false } ∧
    GetInstance stAfterFirstCreate =
      Except.ok ({ id := 0, flag := false }, stAfterFirstCreate) :=
  (deref_unguarded stAfterFirstCreate).2.2.2.2.1 { id := 0, flag := false } rfl
